import Mathlib

/-!
Shallow embedding of the quantitative decision core of the aster_vibetrader
repository: the indicator library and technical analyzer
(src/strategies/technical_analyzer.js), the sentiment fusion engine
(src/strategies/sentiment_engine.js), the risk manager
(src/strategies/risk_manager.js) and the decision-fusion orchestrator
(src/ai/decision_engine.js, `decideTrade`).

Modelling conventions:
* JavaScript numbers are modelled as real numbers (`ℝ`); `Math.tanh` is
  `Real.tanh`, `Math.sqrt` is `Real.sqrt`, `Math.round` is `round`
  (both round halves toward positive infinity).
* A possibly-absent number/object field is an `Option`; the JS idiom
  `x || d` for numbers (which also replaces `0` by `d`) is `jsOr`.
* Functions that can throw are embedded in `Except JsError`; everything
  else is a plain function, as in the source.
-/

namespace VibeTrader

noncomputable section

open Real

/-- The `trading.risk` block of config/trading_config.js. -/
structure RiskConfig where
  maxPositionUsd : ℝ
  maxDailyLossUsd : ℝ
  stopLossBps : ℝ
  takeProfitBps : ℝ

/-- Default configuration values from config/trading_config.js
(no environment overrides). -/
def defaultRiskConfig : RiskConfig := ⟨5000, 1000, 100, 200⟩

/-- JS `x || d` applied to a possibly-absent number `x`: an absent value
and the (falsy) number `0` both yield `d`. -/
def jsOr (x : Option ℝ) (d : ℝ) : ℝ :=
  match x with
  | none => d
  | some v => if v = 0 then d else v

/-- The `clamp` helper from sentiment_engine.js: `Math.min(b, Math.max(a, x))`. -/
def clampR (x a b : ℝ) : ℝ := min b (max a x)

/-! ## Risk manager (src/strategies/risk_manager.js) -/

open Classical in
/-- Source `capOrderSizeUsd(desiredUsd)`: clamp to `[0, maxPositionUsd]`. -/
def capOrderSizeUsd (cfg : RiskConfig) (desiredUsd : ℝ) : ℝ :=
  max 0 (min desiredUsd cfg.maxPositionUsd)

open Classical in
/-- Source `shouldHaltTrading({realizedPnlTodayUsd, drawdownFromPeakPct = 0,
circuitBreaker = false})`. -/
def shouldHaltTrading (cfg : RiskConfig) (realizedPnlTodayUsd drawdownFromPeakPct : ℝ)
    (circuitBreaker : Bool) : Bool :=
  if circuitBreaker then true
  else if realizedPnlTodayUsd ≤ -|cfg.maxDailyLossUsd| then true
  else if drawdownFromPeakPct ≥ 10 then true
  else false

/-- A trade side, the `'buy'`/`'sell'` strings fed to `computeStops`
(every non-`'buy'` string takes the `else` branch, i.e. `sell`). -/
inductive Side
  | buy
  | sell
deriving DecidableEq

/-- The `{ stopLoss, takeProfit }` record returned by `computeStops`. -/
structure Stops where
  stopLoss : ℝ
  takeProfit : ℝ
deriving DecidableEq

open Classical in
/-- Source `computeStops(entryPrice, side, atrValue)`.  The JS truthiness test
`atrValue && entryPrice` is `atrValue ≠ 0 ∧ entryPrice ≠ 0` (a `null` ATR
behaves exactly like `0` here and is passed as `0`). -/
def computeStops (cfg : RiskConfig) (entryPrice : ℝ) (side : Side) (atrValue : ℝ) : Stops :=
  if atrValue ≠ 0 ∧ entryPrice ≠ 0 then
    match side with
    | .buy => ⟨entryPrice - atrValue * 1.2, entryPrice + atrValue * 2.0⟩
    | .sell => ⟨entryPrice + atrValue * 1.2, entryPrice - atrValue * 2.0⟩
  else
    match side with
    | .buy => ⟨entryPrice * (1 - cfg.stopLossBps / 10000),
               entryPrice * (1 + cfg.takeProfitBps / 10000)⟩
    | .sell => ⟨entryPrice * (1 + cfg.stopLossBps / 10000),
                entryPrice * (1 - cfg.takeProfitBps / 10000)⟩

/-- The `{ highVol, trending, liquid }` record of `detectRegime`. -/
structure Regime where
  highVol : Bool
  trending : Bool
  liquid : Bool
deriving DecidableEq

open Classical in
/-- Source `detectRegime({atrPct, emaSlope, liquidityScore})`. -/
def detectRegime (atrPct emaSlope : ℝ) (liquidityScore : Option ℝ) : Regime :=
  ⟨decide (atrPct > 0.02), decide (|emaSlope| > 0.0005),
   decide (liquidityScore.getD 0.5 > 0.5)⟩

/-- Source `kellyFraction(winProb, winLossRatio)`. -/
def kellyFraction (winProb rr : ℝ) : ℝ :=
  let p := max 0 (min 1 winProb)
  let r := max 0.01 rr
  max 0 (min 0.25 (p - (1 - p) / r))

/-- Source `positionSizeUsd({accountEquityUsd, confidence, atrPct, maxRiskPctPerTrade})`. -/
def positionSizeUsd (accountEquityUsd confidence atrPct maxRiskPctPerTrade : ℝ) : ℝ :=
  let volAdj := max 0.25 (1 - atrPct / 0.04)
  let kelly := kellyFraction confidence 1.5
  accountEquityUsd * min maxRiskPctPerTrade kelly * 5 * volAdj

open Classical in
/-- Source `marketCircuitBreaker({change1hPct = 0, change5mPct = 0,
orderbookImbalance = 0, volatilitySpike = false, correlationBreakdown = false})`. -/
def marketCircuitBreaker (change1hPct change5mPct orderbookImbalance : ℝ)
    (volatilitySpike correlationBreakdown : Bool) : Bool :=
  if |change1hPct| > 8 then true
  else if |change5mPct| > 3.5 then true
  else if |orderbookImbalance| > 0.8 then true
  else if volatilitySpike then true
  else if correlationBreakdown then true
  else false

/-- The per-series expression `sumSq - sum*sum/n` that `calculateCorrelation`
places under the square root; it equals `n` times the population variance of
the series. -/
def corrVarTerm (l : List ℝ) : ℝ :=
  (l.map fun x => x * x).sum - l.sum * l.sum / l.length

open Classical in
/-- Source `calculateCorrelation(returns1, returns2)`: Pearson correlation with the
source's guards (`length` mismatch or fewer than 2 points, and a zero
denominator, all return the sentinel `0`). -/
def calculateCorrelation (returns1 returns2 : List ℝ) : ℝ :=
  if returns1.length ≠ returns2.length ∨ returns1.length < 2 then 0
  else if Real.sqrt (corrVarTerm returns1 * corrVarTerm returns2) = 0 then 0
  else ((List.zipWith (fun a b => a * b) returns1 returns2).sum
        - returns1.sum * returns2.sum / returns1.length)
      / Real.sqrt (corrVarTerm returns1 * corrVarTerm returns2)

/-! ## Indicator library (src/strategies/technical_analyzer.js) -/

/-- Source `ema(values, period)`: seed = mean of the first `period` values, then
exponential smoothing with `k = 2/(period+1)` over the remainder;
`null` (here `none`) below `period` observations. -/
def ema (values : List ℝ) (period : ℕ) : Option ℝ :=
  if values.length < period then none
  else
    let k : ℝ := 2 / ((period : ℝ) + 1)
    let seed := (values.take period).sum / period
    some ((values.drop period).foldl (fun e v => v * k + e * (1 - k)) seed)

/-- Consecutive differences `cur - prev` of a list, i.e. the `change`
values of the `rsi` loop. -/
def diffsOf (l : List ℝ) : List ℝ :=
  List.zipWith (fun prev cur => cur - prev) l l.tail

open Classical in
/-- The `gains` accumulator of `rsi` over the trailing `period` changes. -/
def rsiGains (values : List ℝ) (period : ℕ) : ℝ :=
  (diffsOf (values.drop (values.length - (period + 1)))).foldl
    (fun g c => if c > 0 then g + c else g) 0

open Classical in
/-- The `losses` accumulator of `rsi` over the trailing `period` changes. -/
def rsiLosses (values : List ℝ) (period : ℕ) : ℝ :=
  (diffsOf (values.drop (values.length - (period + 1)))).foldl
    (fun s c => if c > 0 then s else s - c) 0

/-- The `avgGain` local of `rsi`. -/
def avgGain (values : List ℝ) (period : ℕ) : ℝ := rsiGains values period / period

/-- The `avgLoss` local of `rsi`. -/
def avgLoss (values : List ℝ) (period : ℕ) : ℝ := rsiLosses values period / period

open Classical in
/-- Source `rsi(values, period = 14)`: `null` below `period+1` observations,
exactly `100` when `avgLoss` is zero, else `100 - 100/(1 + avgGain/avgLoss)`. -/
def rsi (values : List ℝ) (period : ℕ) : Option ℝ :=
  if values.length < period + 1 then none
  else if avgLoss values period = 0 then some 100
  else some (100 - 100 / (1 + avgGain values period / avgLoss values period))

/-- The `{ macd, signal, histogram }` record of `macd`. -/
structure MacdVal where
  macd : ℝ
  signal : ℝ
  histogram : ℝ
deriving DecidableEq

/-- The `macdSeries` history of `macd`: for each index `i` from
`max(0, length - (slow+signal+20))` to `length - 1`, the fast/slow EMA
difference of `values.slice(0, i+1)`, kept when both EMAs exist. -/
def macdSeriesOf (values : List ℝ) (fast slow signal : ℕ) : List ℝ :=
  ((List.range values.length).drop (values.length - (slow + signal + 20))).filterMap
    fun i =>
      match ema (values.take (i + 1)) fast, ema (values.take (i + 1)) slow with
      | some f, some s => some (f - s)
      | _, _ => none

/-- Source `macd(values, fast = 12, slow = 26, signal = 9)` with the source's
bounded-window signal-line approximation. -/
def macd (values : List ℝ) (fast slow signal : ℕ) : Option MacdVal :=
  if values.length < slow + signal then none
  else
    match ema values fast, ema values slow with
    | some fastE, some slowE =>
      let macdValue := fastE - slowE
      let k : ℝ := 2 / ((signal : ℝ) + 1)
      let series := macdSeriesOf values fast slow signal
      let signalEma :=
        match series with
        | [] => macdValue
        | h :: t => t.foldl (fun e m => m * k + e * (1 - k)) h
      some ⟨macdValue, signalEma, macdValue - signalEma⟩
    | _, _ => none

/-- The `{ middle, upper, lower, std }` record of `bollinger`. -/
structure Bollinger where
  middle : ℝ
  upper : ℝ
  lower : ℝ
  std : ℝ
deriving DecidableEq

/-- Source `bollinger(values, period = 20, mult = 2)`: trailing mean and
± `mult` population standard deviations. -/
def bollinger (values : List ℝ) (period : ℕ) (mult : ℝ) : Option Bollinger :=
  if values.length < period then none
  else
    let slice := values.drop (values.length - period)
    let mean := slice.sum / (period : ℝ)
    let variance := (slice.map fun b => (b - mean) ^ 2).sum / (period : ℝ)
    let std := Real.sqrt variance
    some ⟨mean, mean + mult * std, mean - mult * std, std⟩

/-- A candle.  `openTime`, `open` and `closeTime` are never read by the
embedded core and are omitted. -/
structure Candle where
  high : ℝ
  low : ℝ
  close : ℝ
  volume : ℝ
deriving DecidableEq

/-- The true range `max(high-low, |high-prevClose|, |low-prevClose|)`. -/
def trueRange (prev cur : Candle) : ℝ :=
  max (cur.high - cur.low) (max |cur.high - prev.close| |cur.low - prev.close|)

/-- Source `atr(candles, period = 14)`: mean of the true ranges over the trailing
`period` candles (each paired with its predecessor, which exists under the
length guard). -/
def atr (candles : List Candle) (period : ℕ) : Option ℝ :=
  if candles.length < period + 1 then none
  else
    let window := candles.drop (candles.length - (period + 1))
    let trs := List.zipWith trueRange window window.tail
    some (trs.sum / trs.length)

/-- The `{ nodes, poc, range }` record of `volumeProfile` (empty input
returns `{ nodes: [], poc: null }`, i.e. no range). -/
structure VolProfile where
  nodes : List ℝ
  poc : Option ℝ
  range : Option (ℝ × ℝ)
deriving DecidableEq

open Classical in
/-- Source `volumeProfile(candles, bins = 12)`: equal-width close-price buckets,
volume accumulated per bucket, point of control = midpoint of the first
bucket attaining the maximal volume. -/
def volumeProfile (candles : List Candle) (bins : ℕ) : VolProfile :=
  match candles with
  | [] => ⟨[], none, none⟩
  | c :: cs =>
    let prices := (c :: cs).map Candle.close
    let vols := (c :: cs).map Candle.volume
    let mn := prices.foldl min c.close
    let mx := prices.foldl max c.close
    let step0 := (mx - mn) / bins
    let step := if step0 = 0 then 1 else step0
    let idxOfPrice : ℝ → ℕ := fun p => min (bins - 1) (max 0 ⌊(p - mn) / step⌋).toNat
    let nodes := (List.range bins).map fun b =>
      ((List.zip prices vols).filter fun pv => idxOfPrice pv.1 = b).foldl
        (fun acc pv => acc + pv.2) 0
    let mxNode := nodes.foldl max 0
    let pocIdx : ℕ := ((nodes.findIdx? fun x => x = mxNode).getD 0)
    ⟨nodes, some (mn + pocIdx * step + step / 2), some (mn, mx)⟩

/-! ## Technical signal analyzer (`analyzeMultiTimeframe`) -/

/-- The `{ ema9, ema21, ema50 }` sub-record of the technical context. -/
structure EmaTriple where
  ema9 : Option ℝ
  ema21 : Option ℝ
  ema50 : Option ℝ
deriving DecidableEq

/-- The `context` audit record of the technical signal. -/
structure TechContext where
  rsi5m : Option ℝ
  rsi1h : Option ℝ
  rsi4h : Option ℝ
  macd1h : Option MacdVal
  macd4h : Option MacdVal
  bb5m : Option Bollinger
  bb1h : Option Bollinger
  ema1h : EmaTriple
  atr1h : Option ℝ
  vp1h : VolProfile
  reversionTarget : Option ℝ
deriving DecidableEq

/-- The technical analyzer's action strings `'BUY' | 'SELL' | 'HOLD'`. -/
inductive TechAction
  | BUY
  | SELL
  | HOLD
deriving DecidableEq

/-- The technical signal record (prompt-only `rationale` text omitted). -/
structure TechSignal where
  action : TechAction
  confidence : ℝ
  size : ℝ
  context : TechContext
deriving DecidableEq

/-- JS truthiness of a possibly-`null` number: present and nonzero. -/
def numTruthy : Option ℝ → Prop
  | none => False
  | some v => v ≠ 0

open Classical in
/-- The 5-minute mean-reversion bias of `analyzeMultiTimeframe`: the body of
`if (bb5 && last5 != null) { ... }` with the source's truthiness guard
`rsi5 && rsi5 > 70` (resp. `rsi5 && rsi5 < 30`). -/
def mrBiasOf (closes5 : List ℝ) : ℝ :=
  match bollinger closes5 20 2, closes5.getLast? with
  | some bb5, some last5 =>
    let r5 := rsi closes5 14
    if last5 > bb5.upper ∧ numTruthy r5 ∧ r5.getD 0 > 70 then -1
    else if last5 < bb5.lower ∧ numTruthy r5 ∧ r5.getD 0 < 30 then 1
    else 0
  | _, _ => 0

open Classical in
/-- The 1h/4h trend bias of `analyzeMultiTimeframe`: EMA 9/21/50 alignment
gated on the 1h MACD histogram sign (`macd1?.histogram ?? 0`). -/
def trendBiasOf (closes1h : List ℝ) : ℝ :=
  match ema closes1h 9, ema closes1h 21, ema closes1h 50 with
  | some e9, some e21, some e50 =>
    let hist := ((macd closes1h 12 26 9).map MacdVal.histogram).getD 0
    if e9 > e21 ∧ e21 > e50 ∧ hist > 0 then 1
    else if e9 < e21 ∧ e21 < e50 ∧ hist < 0 then -1
    else 0
  | _, _, _ => 0

open Classical in
/-- Source `normalize(x, a, b)`: `0` when `b = a`, else `(x-a)/(b-a)` clamped to `[0,1]`. -/
def normalize (x a b : ℝ) : ℝ :=
  if b = a then 0 else max 0 (min 1 ((x - a) / (b - a)))

/-- The `{ candles5m, candles1h, candles4h }` input of `analyzeMultiTimeframe`. -/
structure MultiTf where
  candles5m : Option (List Candle)
  candles1h : Option (List Candle)
  candles4h : Option (List Candle)

/-- Source `toCloses(cs || [])`: close prices of a possibly-absent candle list. -/
def toCloses (cs : Option (List Candle)) : List ℝ := (cs.getD []).map Candle.close

/-- Source `Number(x.toFixed(2))` for the nonnegative values produced here:
round to 2 decimal places, halves up. -/
def jsRound2 (x : ℝ) : ℝ := (round (x * 100) : ℤ) / 100

open Classical in
/-- Source `analyzeMultiTimeframe({candles5m, candles1h, candles4h})`. -/
def analyzeMultiTimeframe (mtf : MultiTf) : TechSignal :=
  let closes5 := toCloses mtf.candles5m
  let closes1h := toCloses mtf.candles1h
  let closes4h := toCloses mtf.candles4h
  let rsi5 := rsi closes5 14
  let rsi1 := rsi closes1h 14
  let rsi4 := rsi closes4h 14
  let macd1 := macd closes1h 12 26 9
  let macd4 := macd closes4h 12 26 9
  let bb5 := bollinger closes5 20 2
  let bb1 := bollinger closes1h 20 2
  let ema9 := ema closes1h 9
  let ema21 := ema closes1h 21
  let ema50 := ema closes1h 50
  let atr1 := atr (mtf.candles1h.getD []) 14
  let vp1 := volumeProfile (mtf.candles1h.getD []) 16
  let last5 := closes5.getLast?
  let last1 := closes1h.getLast?
  let mrBias := mrBiasOf closes5
  let reversionTarget : Option ℝ :=
    match bb5 with
    | some bb => some bb.middle
    | none => last5
  let trendBias := trendBiasOf closes1h
  let volNorm := normalize (jsOr atr1 0) 0
    (match last1 with
     | some l => if l = 0 then 1 else l * 0.03
     | none => 1)
  let mrWeight := 0.45 * (1 - volNorm)
  let trendWeight := 0.55 * (0.5 + volNorm / 2)
  let bias := mrBias * mrWeight + trendBias * trendWeight
  let action : TechAction := if bias > 0.1 then .BUY else if bias < -0.1 then .SELL else .HOLD
  let confidence := min 0.99 |bias|
  let size := max 0.05 (min 0.5 (0.25 * (0.5 + volNorm / 2)))
  ⟨action, jsRound2 confidence, jsRound2 size,
   ⟨rsi5, rsi1, rsi4, macd1, macd4, bb5, bb1, ⟨ema9, ema21, ema50⟩, atr1, vp1,
    reversionTarget⟩⟩

/-! ## Sentiment fusion engine (src/strategies/sentiment_engine.js) -/

/-- The `social` input object; every field may be absent (default `0`). -/
structure SocialInputs where
  twitterScore : Option ℝ
  telegramScore : Option ℝ
  trendsScore : Option ℝ
  newsScore : Option ℝ

/-- The all-absent social object (`{}`). -/
def SocialInputs.empty : SocialInputs := ⟨none, none, none, none⟩

/-- Source `scoreSocial(social = {})`: weighted sum mapped through
`clamp(round(w*50 + 50), 0, 100)`. -/
def scoreSocial (social : Option SocialInputs) : ℤ :=
  let s := social.getD .empty
  let weighted := 0.35 * s.twitterScore.getD 0 + 0.2 * s.telegramScore.getD 0
    + 0.25 * s.newsScore.getD 0 + 0.2 * s.trendsScore.getD 0
  min 100 (max 0 (round (weighted * 50 + 50)))

/-- The `onchain` input object; every field may be absent (default `0`). -/
structure OnChainInputs where
  whaleInflowUsd : Option ℝ
  whaleOutflowUsd : Option ℝ
  exchangeNetflow : Option ℝ
  gasPriceGwei : Option ℝ
  activeAddrsDelta : Option ℝ

/-- The all-absent on-chain object (`{}`). -/
def OnChainInputs.empty : OnChainInputs := ⟨none, none, none, none, none⟩

/-- Source `scoreOnChain(onchain = {})`. -/
def scoreOnChain (onchain : Option OnChainInputs) : ℤ :=
  let o := onchain.getD .empty
  let whaleNetUsd := o.whaleInflowUsd.getD 0 - o.whaleOutflowUsd.getD 0
  let whaleTerm := Real.tanh (whaleNetUsd / 1000000)
  let flowTerm := clampR (o.exchangeNetflow.getD 0) (-1) 1
  let gasTerm := Real.tanh ((o.gasPriceGwei.getD 0 - 20) / 50)
  let addrTerm := clampR (o.activeAddrsDelta.getD 0) (-1) 1
  let weighted := 0.45 * whaleTerm - 0.25 * flowTerm + 0.15 * gasTerm + 0.15 * addrTerm
  min 100 (max 0 (round (weighted * 50 + 50)))

/-- An order-book snapshot; every field may be absent (default `0`). -/
structure OrderBookSnapshot where
  bidDepth : Option ℝ
  askDepth : Option ℝ
  imbalance : Option ℝ

/-- A `{ price, size }` liquidation cluster. -/
structure LiqCluster where
  price : ℝ
  size : ℝ

/-- The `market` input object of the sentiment engine. -/
structure MarketInputs where
  supports : Option (List ℝ)
  resistances : Option (List ℝ)
  liquidationClusters : Option (List LiqCluster)
  orderbook : Option OrderBookSnapshot

/-- The running `best` record of the nearest-cluster reduce. -/
structure NearestCluster where
  d : ℝ
  above : Bool
  size : ℝ

open Classical in
/-- The nearest-cluster `reduce` of `scoreMarketStructure`: first minimum
of `|price - lastPrice|` wins (strict `<` against the running best). -/
def nearestClusterOf (clusters : List LiqCluster) (lastPrice : ℝ) : Option NearestCluster :=
  clusters.foldl
    (fun best c =>
      let d := |c.price - lastPrice|
      match best with
      | none => some ⟨d, decide (c.price > lastPrice), c.size⟩
      | some b => if d < b.d then some ⟨d, decide (c.price > lastPrice), c.size⟩ else some b)
    none

open Classical in
/-- Source `levels.reduce((p, s) => Math.min(p, Math.abs(s - lastPrice)), Infinity)`;
`none` encodes the `Infinity` of an empty list. -/
def minAbsDistTo (levels : List ℝ) (lastPrice : ℝ) : Option ℝ :=
  levels.foldl
    (fun p s =>
      match p with
      | none => some |s - lastPrice|
      | some q => some (min q |s - lastPrice|))
    none

open Classical in
/-- Source `scoreMarketStructure(market = {}, lastPrice)`.  In the one-sided
support/resistance case the JS computation runs through `Infinity` and
`Math.tanh(±Infinity) = ±1`; the embedding returns that limit directly. -/
def scoreMarketStructure (market : Option MarketInputs) (lastPrice : ℝ) : ℤ :=
  let m := market.getD ⟨none, none, none, none⟩
  let supports := m.supports.getD []
  let resistances := m.resistances.getD []
  let clusters := m.liquidationClusters.getD []
  let ob := m.orderbook.getD ⟨none, none, none⟩
  let bidDepth := ob.bidDepth.getD 0
  let askDepth := ob.askDepth.getD 0
  let imbalance := ob.imbalance.getD 0
  let clusterBias :=
    if clusters ≠ [] ∧ lastPrice ≠ 0 then
      match nearestClusterOf clusters lastPrice with
      | some nearest => Real.tanh ((if nearest.above then -nearest.size else nearest.size) / 1000000)
      | none => 0
    else 0
  let depthBias := Real.tanh ((bidDepth - askDepth) / max 1 (bidDepth + askDepth) * 3)
    + clampR imbalance (-1) 1 * 0.5
  let srBias :=
    if lastPrice ≠ 0 ∧ (supports ≠ [] ∨ resistances ≠ []) then
      match minAbsDistTo supports lastPrice, minAbsDistTo resistances lastPrice with
      | some cs, some cr => Real.tanh ((cr / lastPrice - cs / lastPrice) * 5)
      | some _, none => 1
      | none, some _ => -1
      | none, none => 0
    else 0
  let weighted := 0.5 * depthBias + 0.5 * srBias + 0.3 * clusterBias
  min 100 (max 0 (round (weighted * 50 + 50)))

/-- Sentiment labels. -/
inductive SentLabel
  | bullish
  | neutral
  | bearish
deriving DecidableEq

/-- The `breakdown` sub-record of the sentiment result. -/
structure SentBreakdown where
  socialScore : ℤ
  onchainScore : ℤ
  structureScore : ℤ
deriving DecidableEq

/-- The sentiment result record. -/
structure SentimentResult where
  score : ℤ
  label : SentLabel
  breakdown : SentBreakdown
deriving DecidableEq

/-- The destructured argument of `fuseSentiment`. -/
structure SentInput where
  social : Option SocialInputs
  onchain : Option OnChainInputs
  market : Option MarketInputs
  lastPrice : ℝ

open Classical in
/-- Source `fuseSentiment({social, onchain, market, lastPrice})`. -/
def fuseSentiment (inp : SentInput) : SentimentResult :=
  let socialScore := scoreSocial inp.social
  let onchainScore := scoreOnChain inp.onchain
  let structureScore := scoreMarketStructure inp.market inp.lastPrice
  let score := round (0.45 * (socialScore : ℝ) + 0.35 * (onchainScore : ℝ)
    + 0.2 * (structureScore : ℝ))
  ⟨score,
   if score > 60 then .bullish else if score < 40 then .bearish else .neutral,
   ⟨socialScore, onchainScore, structureScore⟩⟩

/-! ## Decision fusion orchestrator (src/ai/decision_engine.js) -/

/-- A past trade outcome as read by `computePerfWeights` (fields the
function does not read are omitted). -/
structure TradeRec where
  strategy : Option String
  success : Bool
  rr : Option ℝ

open Classical in
/-- The local `score(arr)` of `computePerfWeights`:
`0.5` for an empty bucket, else `clamp01(0.6*winRate + 0.4*tanh(avgRr))`. -/
def perfScore (arr : List TradeRec) : ℝ :=
  if arr = [] then 0.5
  else
    let wins := ((arr.filter fun t => t.success).length : ℝ) / arr.length
    let avgRr := (arr.map fun t => t.rr.getD 0).sum / arr.length
    max 0 (min 1 (0.6 * wins + 0.4 * Real.tanh avgRr))

/-- The `{ tech, sentiment }` weight pair of `computePerfWeights`. -/
structure PerfWeights where
  tech : ℝ
  sentiment : ℝ

open Classical in
/-- Source `computePerfWeights(recentTrades = [])`: bucket by lowercased strategy
tag, score each bucket, normalize (a zero sum normalizes by `1`). -/
def computePerfWeights (recentTrades : List TradeRec) : PerfWeights :=
  let techArr := recentTrades.filter fun t =>
    (t.strategy.getD "").toLower = "tech" ∨ (t.strategy.getD "").toLower = "technical"
  let sentArr := recentTrades.filter fun t => (t.strategy.getD "").toLower = "sentiment"
  let techScore := perfScore techArr
  let sentScore := perfScore sentArr
  let sum := if techScore + sentScore = 0 then 1 else techScore + sentScore
  ⟨techScore / sum, sentScore / sum⟩

/-- The advisory action strings after `sanitizeDecision` (anything outside
`BUY`/`SELL`/`HOLD` was already replaced by `HOLD`). -/
inductive LlmAction
  | BUY
  | SELL
  | HOLD
deriving DecidableEq

/-- A sanitized advisory decision (clamped by `sanitizeDecision`). -/
structure LlmDecision where
  action : LlmAction
  confidence : ℝ
  positionSizePct : ℝ
  stopLoss : ℝ
  takeProfit : ℝ
deriving DecidableEq

/-- The value of `consultDeepSeek`: `null` (disabled, network or parse
failure), a `{ raw }` object without an `action` field, or a sanitized
decision.  Only the last one passes `llmDecision && llmDecision.action`. -/
inductive LlmResult
  | absent
  | raw (text : String)
  | parsed (d : LlmDecision)

/-- The final lowercased action strings `'buy' | 'sell' | 'hold'`. -/
inductive Action
  | buy
  | sell
  | hold
deriving DecidableEq

/-- Source `llmDecision.action.toLowerCase()`. -/
def LlmAction.toAction : LlmAction → Action
  | .BUY => .buy
  | .SELL => .sell
  | .HOLD => .hold

/-- A JavaScript runtime exception. -/
inductive JsError
  | typeError (msg : String)
deriving DecidableEq

/-- The record returned by `decideTrade`.  The early risk-halt return
carries only `action` and `reason`; the full return carries everything
(the prompt-text fields `prompt`/`tradingPrompt`/`llmDecision`, pure
report strings echoed to the caller, are omitted). -/
structure Decision where
  symbol : Option String
  action : Action
  reason : Option String
  confidence : Option ℝ
  sizeUsd : Option ℝ
  regime : Option Regime
  stops : Option Stops
deriving DecidableEq

/-- The `events` argument of `decideTrade`. -/
structure Events where
  social : Option SocialInputs
  onchain : Option OnChainInputs
  market : Option MarketInputs

/-- The `positions` argument of `decideTrade` (only `equityUsd` is read
by the decision logic). -/
structure Positions where
  equityUsd : Option ℝ

/-- The destructured argument of `decideTrade`. -/
structure DecideInput where
  symbol : String
  candles : Option (List Candle)
  events : Option Events
  positions : Option Positions
  multiTf : Option MultiTf
  recentTrades : Option (List TradeRec)

/-- Source `tech`: `analyzeMultiTimeframe(multiTf || {candles5m: candles,
candles1h: candles, candles4h: candles})`. -/
def techOf (inp : DecideInput) : TechSignal :=
  analyzeMultiTimeframe (inp.multiTf.getD ⟨inp.candles, inp.candles, inp.candles⟩)

/-- Source `lastClose`: `multiTf?.candles1h?.[len-1]?.close ||
candles?.[len-1]?.close || 0`. -/
def lastCloseOf (inp : DecideInput) : ℝ :=
  jsOr (((inp.multiTf.bind MultiTf.candles1h).bind List.getLast?).map Candle.close)
    (jsOr ((inp.candles.bind List.getLast?).map Candle.close) 0)

/-- Source `sentiment`: `fuseSentiment({social: events?.social, onchain:
events?.onchain, market: events?.market, lastPrice: lastClose})`. -/
def sentimentOf (inp : DecideInput) : SentimentResult :=
  fuseSentiment ⟨inp.events.bind Events.social, inp.events.bind Events.onchain,
    inp.events.bind Events.market, lastCloseOf inp⟩

/-- Source `atr1`: `tech?.context?.atr?.['1h'] || 0`. -/
def atr1Of (inp : DecideInput) : ℝ := jsOr (techOf inp).context.atr1h 0

open Classical in
/-- Source `atrPct`: `atr1 && lastClose ? atr1 / lastClose : 0`. -/
def atrPctOf (inp : DecideInput) : ℝ :=
  if atr1Of inp ≠ 0 ∧ lastCloseOf inp ≠ 0 then atr1Of inp / lastCloseOf inp else 0

/-- Source `emaSlope`: `(ema9 - ema21) / Math.max(1, lastClose)` with
`ema9 = tech?.context?.ema?.['1h']?.ema9 || lastClose` (same for `ema21`). -/
def emaSlopeOf (inp : DecideInput) : ℝ :=
  (jsOr (techOf inp).context.ema1h.ema9 (lastCloseOf inp)
    - jsOr (techOf inp).context.ema1h.ema21 (lastCloseOf inp)) / max 1 (lastCloseOf inp)

open Classical in
/-- Source `regime`: `detectRegime({atrPct, emaSlope, liquidityScore:
events?.market?.orderbook ? 0.6 : 0.5})`. -/
def regimeOf (inp : DecideInput) : Regime :=
  detectRegime (atrPctOf inp) (emaSlopeOf inp)
    (some (if ((inp.events.bind Events.market).bind MarketInputs.orderbook).isSome
      then 0.6 else 0.5))

open Classical in
/-- Source `baseTechWeight`: `regime.trending ? 0.65 : 0.45`. -/
def baseTechWeightOf (inp : DecideInput) : ℝ :=
  if (regimeOf inp).trending then 0.65 else 0.45

/-- Source `perfW`: `computePerfWeights(recentTrades || [])`. -/
def perfWeightsOf (inp : DecideInput) : PerfWeights :=
  computePerfWeights (inp.recentTrades.getD [])

/-- Source `techWeight`: `min(0.8, max(0.2, 0.5*baseTechWeight + 0.5*perfW.tech))`. -/
def techWeightOf (inp : DecideInput) : ℝ :=
  min 0.8 (max 0.2 (0.5 * baseTechWeightOf inp + 0.5 * (perfWeightsOf inp).tech))

/-- Source `sentWeight`: `min(0.8, max(0.2, 0.5*baseSentWeight + 0.5*perfW.sentiment))`
with `baseSentWeight = 1 - baseTechWeight`. -/
def sentWeightOf (inp : DecideInput) : ℝ :=
  min 0.8 (max 0.2 (0.5 * (1 - baseTechWeightOf inp) + 0.5 * (perfWeightsOf inp).sentiment))

open Classical in
/-- Source `norm`: `techWeight + sentWeight || 1`. -/
def normOf (inp : DecideInput) : ℝ :=
  if techWeightOf inp + sentWeightOf inp = 0 then 1
  else techWeightOf inp + sentWeightOf inp

/-- Source `techBias`: `tech.action === 'BUY' ? 1 : tech.action === 'SELL' ? -1 : 0`. -/
def techBiasOf (inp : DecideInput) : ℝ :=
  match (techOf inp).action with
  | .BUY => 1
  | .SELL => -1
  | .HOLD => 0

open Classical in
/-- Source `techStrength`: `tech.confidence || 0.5`. -/
def techStrengthOf (inp : DecideInput) : ℝ :=
  if (techOf inp).confidence = 0 then 0.5 else (techOf inp).confidence

/-- Source `sentimentBias`: `(sentiment.score - 50) / 50`. -/
def sentimentBiasOf (inp : DecideInput) : ℝ :=
  (((sentimentOf inp).score : ℝ) - 50) / 50

/-- Source `fused`: the weighted sum of the technical and sentiment biases. -/
def fusedOf (inp : DecideInput) : ℝ :=
  techBiasOf inp * techStrengthOf inp * (techWeightOf inp / normOf inp)
    + sentimentBiasOf inp * (sentWeightOf inp / normOf inp)

open Classical in
/-- The pre-conflict action: `fused > 0.1 ? 'buy' : fused < -0.1 ? 'sell' : 'hold'`. -/
def action0Of (inp : DecideInput) : Action :=
  if fusedOf inp > 0.1 then .buy else if fusedOf inp < -0.1 then .sell else .hold

/-- Source `confidence`: `min(0.99, |fused|)` (before the advisory overlay). -/
def confidence0Of (inp : DecideInput) : ℝ := min 0.99 |fusedOf inp|

/-- Source `conflict`: `(techBias > 0 && sentimentBias < -0.25) ||
(techBias < 0 && sentimentBias > 0.25)`. -/
def conflictOf (inp : DecideInput) : Prop :=
  (techBiasOf inp > 0 ∧ sentimentBiasOf inp < -0.25)
    ∨ (techBiasOf inp < 0 ∧ sentimentBiasOf inp > 0.25)

open Classical in
/-- The action after conflict resolution (source lines
`if (conflict && confidence < 0.25) ... else if (conflict && confidence >= 0.25) ...`). -/
def action1Of (inp : DecideInput) : Action :=
  if conflictOf inp ∧ confidence0Of inp < 0.25 then .hold
  else if conflictOf inp ∧ confidence0Of inp ≥ 0.25 then
    (if (regimeOf inp).trending then (if techBiasOf inp > 0 then Action.buy else .sell)
     else (if sentimentBiasOf inp > 0 then Action.buy else .sell))
  else action0Of inp

/-- Source `accountEquityUsd`: `positions?.equityUsd || 10000`. -/
def equityOf (inp : DecideInput) : ℝ :=
  jsOr (inp.positions.bind Positions.equityUsd) 10000

/-- Source `sizeUsd`: `capOrderSizeUsd(positionSizeUsd({...}))`, declared `const`
in the source. -/
def sizeUsdOf (cfg : RiskConfig) (inp : DecideInput) : ℝ :=
  capOrderSizeUsd cfg
    (positionSizeUsd (equityOf inp) (confidence0Of inp) (atrPctOf inp) 0.02)

open Classical in
/-- The advisory-overlay stage: the final `(action, confidence)` pair, or
the `TypeError` the source throws when the accepted advisory supplies a
nonzero position size (the reassignment `sizeUsd = Math.min(sizeUsd, sized)`
targets the `const sizeUsd` binding). -/
def overlayOf (cfg : RiskConfig) (inp : DecideInput) (llm : LlmResult) :
    Except JsError (Action × ℝ) :=
  match llm with
  | .parsed d =>
    let llmBias : ℝ :=
      match d.action with
      | .BUY => 1
      | .SELL => -1
      | .HOLD => 0
    let aligns := (action1Of inp = .buy ∧ llmBias > 0)
      ∨ (action1Of inp = .sell ∧ llmBias < 0)
      ∨ (action1Of inp = .hold ∧ llmBias = 0)
    let confOk := d.confidence ≥ confidence0Of inp - 0.1
    if (aligns ∧ confOk) ∨ d.confidence > confidence0Of inp + 0.2 then
      if d.positionSizePct ≠ 0
          ∧ capOrderSizeUsd cfg (equityOf inp * (d.positionSizePct / 100)) > 0 then
        .error (.typeError "Assignment to constant variable.")
      else
        .ok (d.action.toAction, max (confidence0Of inp) d.confidence)
    else
      .ok (action1Of inp, confidence0Of inp)
  | _ => .ok (action1Of inp, confidence0Of inp)

open Classical in
/-- Source `decideTrade({symbol, candles, events, positions, multiTf, recentTrades})`
given the externally supplied advisory result.  The circuit-breaker and
halt predicates are invoked exactly as in the source: on the constant
inputs `{change1hPct: 0, change5mPct: 0, orderbookImbalance: 0}` and
`{realizedPnlTodayUsd: 0, circuitBreaker: circuit}`. -/
def decideTrade (cfg : RiskConfig) (inp : DecideInput) (llm : LlmResult) :
    Except JsError Decision :=
  if shouldHaltTrading cfg 0 0 (marketCircuitBreaker 0 0 0 false false) then
    .ok ⟨none, .hold, some "risk_halt", none, none, none, none⟩
  else
    match overlayOf cfg inp llm with
    | .error e => .error e
    | .ok (action, confidence) =>
      .ok ⟨some inp.symbol, action, none, some confidence, some (sizeUsdOf cfg inp),
        some (regimeOf inp),
        some (computeStops cfg (lastCloseOf inp)
          (if action = .sell then .sell else .buy) (atr1Of inp))⟩

/-! ## Helper lemmas -/

/-- A strictly increasing list has strictly positive consecutive differences. -/
lemma diffsOf_pos (l : List ℝ) (h : List.Chain' (· < ·) l) :
    ∀ c ∈ diffsOf l, 0 < c := by
  induction l with
  | nil => intro c hc; simp [diffsOf] at hc
  | cons x t ih =>
    cases t with
    | nil => intro c hc; simp [diffsOf] at hc
    | cons y s =>
      rw [List.chain'_cons] at h
      intro c hc
      rw [show diffsOf (x :: y :: s) = (y - x) :: diffsOf (y :: s) by
        simp [diffsOf, List.zipWith]] at hc
      rcases List.mem_cons.mp hc with h1 | h2
      · subst h1; linarith [h.1]
      · exact ih h.2 c h2

/-- The `losses` fold leaves its accumulator unchanged on strictly positive
changes. -/
lemma lossesFold_of_pos (l : List ℝ) (h : ∀ c ∈ l, 0 < c) :
    ∀ a : ℝ, l.foldl (fun s c => if c > 0 then s else s - c) a = a := by
  induction l with
  | nil => intro a; simp
  | cons x t ih =>
    intro a
    have hx : x > 0 := h x (List.mem_cons_self x t)
    simp only [List.foldl_cons, if_pos hx]
    exact ih (fun c hc => h c (List.mem_cons_of_mem x hc)) a

/-- Dropping elements preserves a strict chain. -/
lemma chain'_drop (l : List ℝ) (h : List.Chain' (· < ·) l) (n : ℕ) :
    List.Chain' (· < ·) (l.drop n) := by
  induction n generalizing l with
  | zero => simpa using h
  | succ k ih =>
    cases l with
    | nil => simp
    | cons x t =>
      simp only [List.drop_succ_cons]
      exact ih t (List.Chain'.tail h)

/-! ## C6: rsi is exactly 100 on all-gain windows -/

/-- C6.  `rsi` returns exactly `100` whenever the trailing average loss is
zero, and in particular on every strictly monotonically increasing series
of length greater than the period. -/
theorem c6_rsiAllGains (values : List ℝ) (period : ℕ) (_hp : 0 < period)
    (hlen : period < values.length) :
    (avgLoss values period = 0 → rsi values period = some 100)
    ∧ (List.Chain' (· < ·) values → rsi values period = some 100) := by
  constructor
  · intro h
    unfold rsi
    rw [if_neg (by omega), if_pos h]
  · intro hchain
    have hz : avgLoss values period = 0 := by
      unfold avgLoss rsiLosses
      rw [lossesFold_of_pos _ (diffsOf_pos _ (chain'_drop _ hchain _)) 0]
      simp
    unfold rsi
    rw [if_neg (by omega), if_pos hz]

/-- Witness for C6 at the concrete strictly increasing series `[1, 2, 3]`
with period `2`. -/
theorem c6_rsiAllGains_witness :
    ((0 : ℕ) < 2 ∧ 2 < ([1, 2, 3] : List ℝ).length
      ∧ List.Chain' (· < ·) ([1, 2, 3] : List ℝ))
    ∧ rsi [1, 2, 3] 2 = some 100 :=
  ⟨⟨by norm_num, by norm_num, by norm_num [List.chain'_cons]⟩,
   (c6_rsiAllGains [1, 2, 3] 2 (by norm_num) (by norm_num)).2
     (by norm_num [List.chain'_cons])⟩

/-! ## C8: stops sit on the correct side of the entry price -/

/-- C8.  For a strictly positive entry price, `computeStops` places the stop
strictly below and the target strictly above the entry for a buy, and
inverted for a sell — both in the ATR branch (strictly positive ATR) and in
the basis-point fallback (strictly positive configured bps; the fallback is
taken when the ATR argument is `0`, i.e. absent). -/
theorem c8_stopsSides (cfg : RiskConfig) (entry a : ℝ) (he : 0 < entry)
    (ha : 0 < a) (hsl : 0 < cfg.stopLossBps) (htp : 0 < cfg.takeProfitBps) :
    ((computeStops cfg entry .buy a).stopLoss < entry
      ∧ entry < (computeStops cfg entry .buy a).takeProfit)
    ∧ ((computeStops cfg entry .sell a).takeProfit < entry
      ∧ entry < (computeStops cfg entry .sell a).stopLoss)
    ∧ ((computeStops cfg entry .buy 0).stopLoss < entry
      ∧ entry < (computeStops cfg entry .buy 0).takeProfit)
    ∧ ((computeStops cfg entry .sell 0).takeProfit < entry
      ∧ entry < (computeStops cfg entry .sell 0).stopLoss) := by
  have h1 : (a ≠ 0 ∧ entry ≠ 0) := ⟨ne_of_gt ha, ne_of_gt he⟩
  have h2 : ¬((0 : ℝ) ≠ 0 ∧ entry ≠ 0) := by simp
  have e1 : computeStops cfg entry .buy a = ⟨entry - a * 1.2, entry + a * 2.0⟩ := by
    unfold computeStops; rw [if_pos h1]
  have e2 : computeStops cfg entry .sell a = ⟨entry + a * 1.2, entry - a * 2.0⟩ := by
    unfold computeStops; rw [if_pos h1]
  have e3 : computeStops cfg entry .buy 0 =
      ⟨entry * (1 - cfg.stopLossBps / 10000), entry * (1 + cfg.takeProfitBps / 10000)⟩ := by
    unfold computeStops; rw [if_neg h2]
  have e4 : computeStops cfg entry .sell 0 =
      ⟨entry * (1 + cfg.stopLossBps / 10000), entry * (1 - cfg.takeProfitBps / 10000)⟩ := by
    unfold computeStops; rw [if_neg h2]
  rw [e1, e2, e3, e4]
  refine ⟨⟨?_, ?_⟩, ⟨?_, ?_⟩, ⟨?_, ?_⟩, ⟨?_, ?_⟩⟩ <;>
    simp only [] <;> nlinarith [mul_pos he hsl, mul_pos he htp]

/-- Witness for C8 at entry `100`, ATR `2` and the default configuration. -/
theorem c8_stopsSides_witness :
    ((0 : ℝ) < 100 ∧ (0 : ℝ) < 2 ∧ 0 < defaultRiskConfig.stopLossBps
      ∧ 0 < defaultRiskConfig.takeProfitBps)
    ∧ ((computeStops defaultRiskConfig 100 .buy 2).stopLoss < 100
      ∧ 100 < (computeStops defaultRiskConfig 100 .buy 2).takeProfit)
    ∧ ((computeStops defaultRiskConfig 100 .sell 2).takeProfit < 100
      ∧ 100 < (computeStops defaultRiskConfig 100 .sell 2).stopLoss)
    ∧ ((computeStops defaultRiskConfig 100 .buy 0).stopLoss < 100
      ∧ 100 < (computeStops defaultRiskConfig 100 .buy 0).takeProfit)
    ∧ ((computeStops defaultRiskConfig 100 .sell 0).takeProfit < 100
      ∧ 100 < (computeStops defaultRiskConfig 100 .sell 0).stopLoss) :=
  ⟨⟨by norm_num, by norm_num, by norm_num [defaultRiskConfig], by norm_num [defaultRiskConfig]⟩,
   c8_stopsSides defaultRiskConfig 100 2 (by norm_num) (by norm_num)
     (by norm_num [defaultRiskConfig]) (by norm_num [defaultRiskConfig])⟩

/-! ## C7: correlation symmetry, self-correlation and degenerate sentinels -/

/-- Expansion of a sum of squared deviations from an arbitrary center. -/
lemma sum_sq_dev (μ : ℝ) (l : List ℝ) :
    (l.map fun a => (a - μ) ^ 2).sum
      = (l.map fun a => a * a).sum - 2 * μ * l.sum + l.length * μ ^ 2 := by
  induction l with
  | nil => simp
  | cons x t ih =>
    simp only [List.map_cons, List.sum_cons, List.length_cons, ih]
    push_cast
    ring

/-- The term `corrVarTerm` is the sum of squared deviations from the mean. -/
lemma corrVarTerm_eq_sum_sq (l : List ℝ) (h : l ≠ []) :
    corrVarTerm l = (l.map fun a => (a - l.sum / l.length) ^ 2).sum := by
  have hn : (l.length : ℝ) ≠ 0 := by
    have h1 : 0 < l.length := List.length_pos.mpr h
    exact_mod_cast h1.ne'
  rw [sum_sq_dev]
  unfold corrVarTerm
  field_simp
  ring

/-- The term `corrVarTerm` is nonnegative. -/
lemma corrVarTerm_nonneg (l : List ℝ) : 0 ≤ corrVarTerm l := by
  rcases eq_or_ne l [] with rfl | h
  · simp [corrVarTerm]
  · rw [corrVarTerm_eq_sum_sq l h]
    apply List.sum_nonneg
    intro x hx
    rcases List.mem_map.mp hx with ⟨a, _, rfl⟩
    positivity

/-- The pairwise product list of a list with itself is its square list. -/
lemma zipWith_mul_self (l : List ℝ) :
    List.zipWith (fun a b => a * b) l l = l.map fun x => x * x := by
  induction l with
  | nil => simp
  | cons x t ih => simp [ih]

/-- C7.  `calculateCorrelation` is symmetric; the correlation of a series
with itself is exactly `1` whenever its variance term is nonzero; unequal
lengths or fewer than 2 points yield the sentinel `0`; and a zero variance
term on either side yields the sentinel `0`. -/
theorem c7_corrAlgebra :
    (∀ A B : List ℝ, calculateCorrelation A B = calculateCorrelation B A)
    ∧ (∀ A : List ℝ, 2 ≤ A.length → corrVarTerm A ≠ 0 →
        calculateCorrelation A A = 1)
    ∧ (∀ A B : List ℝ, A.length ≠ B.length ∨ A.length < 2 →
        calculateCorrelation A B = 0)
    ∧ (∀ A B : List ℝ, A.length = B.length → 2 ≤ A.length →
        corrVarTerm A = 0 ∨ corrVarTerm B = 0 → calculateCorrelation A B = 0) := by
  refine ⟨?_, ?_, ?_, ?_⟩
  · intro A B
    by_cases hlen : A.length = B.length
    · have hz : List.zipWith (fun a b => a * b) A B
          = List.zipWith (fun a b => a * b) B A :=
        List.zipWith_comm_of_comm _ mul_comm A B
      unfold calculateCorrelation
      rw [hz, hlen, mul_comm (corrVarTerm A) (corrVarTerm B), mul_comm A.sum B.sum]
    · unfold calculateCorrelation
      rw [if_pos (Or.inl hlen), if_pos (Or.inl (Ne.symm hlen))]
  · intro A h2 hvar
    have hpos : 0 < corrVarTerm A := lt_of_le_of_ne (corrVarTerm_nonneg A) (Ne.symm hvar)
    have hsq : Real.sqrt (corrVarTerm A * corrVarTerm A) = corrVarTerm A :=
      Real.sqrt_mul_self (le_of_lt hpos)
    unfold calculateCorrelation
    rw [if_neg (by push_neg; exact ⟨rfl, h2⟩), if_neg (by rw [hsq]; exact hvar),
      hsq, zipWith_mul_self]
    rw [show (A.map fun x => x * x).sum - A.sum * A.sum / A.length = corrVarTerm A from rfl]
    exact div_self hvar
  · intro A B h
    unfold calculateCorrelation
    rw [if_pos h]
  · intro A B hlen h2 hzero
    have hden : Real.sqrt (corrVarTerm A * corrVarTerm B) = 0 := by
      rcases hzero with h0 | h0 <;> rw [h0] <;> simp
    unfold calculateCorrelation
    rw [if_neg (by push_neg; exact ⟨hlen, h2⟩), if_pos hden]

/-- Witness for C7: symmetry at `[1,2]`/`[3,5]`, self-correlation `1` at
`[1,2]`, sentinel `0` at mismatched `[7]`/`[1,2]` lengths, and sentinel `0`
for the zero-variance pair `[2,2]`/`[1,3]`. -/
theorem c7_corrAlgebra_witness :
    (calculateCorrelation [1, 2] [3, 5] = calculateCorrelation [3, 5] [1, 2])
    ∧ (2 ≤ ([1, 2] : List ℝ).length ∧ corrVarTerm ([1, 2] : List ℝ) ≠ 0
      ∧ calculateCorrelation [1, 2] [1, 2] = 1)
    ∧ (calculateCorrelation ([7] : List ℝ) [1, 2] = 0)
    ∧ (corrVarTerm ([2, 2] : List ℝ) = 0 ∧ calculateCorrelation [2, 2] [1, 3] = 0) := by
  have hv1 : corrVarTerm ([1, 2] : List ℝ) ≠ 0 := by
    norm_num [corrVarTerm]
  have hv2 : corrVarTerm ([2, 2] : List ℝ) = 0 := by
    norm_num [corrVarTerm]
  exact ⟨c7_corrAlgebra.1 [1, 2] [3, 5],
    ⟨by norm_num, hv1, c7_corrAlgebra.2.1 [1, 2] (by norm_num) hv1⟩,
    c7_corrAlgebra.2.2.1 [7] [1, 2] (by norm_num),
    ⟨hv2, c7_corrAlgebra.2.2.2 [2, 2] [1, 3] (by norm_num) (by norm_num) (Or.inl hv2)⟩⟩

/-! ## Numeric facts about round and tanh used by the evaluations -/

/-- Evaluate `round` from two bounds. -/
lemma round_eval (x : ℝ) (z : ℤ) (h1 : (z : ℝ) ≤ x + 1 / 2) (h2 : x + 1 / 2 < z + 1) :
    round x = z := by
  rw [round_eq]
  exact Int.floor_eq_iff.mpr ⟨h1, by exact_mod_cast h2⟩

/-- Expressing `tanh` via `exp` of the doubled argument. -/
lemma tanh_as_exp (x : ℝ) :
    Real.tanh x = (Real.exp (2 * x) - 1) / (Real.exp (2 * x) + 1) := by
  rw [Real.tanh_eq_sinh_div_cosh, Real.sinh_eq, Real.cosh_eq]
  have h1 : Real.exp x ≠ 0 := (Real.exp_pos x).ne'
  have h2 : Real.exp (2 * x) = Real.exp x * Real.exp x := by
    rw [two_mul, Real.exp_add]
  have h3 : Real.exp (-x) = (Real.exp x)⁻¹ := Real.exp_neg x
  have h4 : Real.exp x + (Real.exp x)⁻¹ ≠ 0 := by positivity
  have h5 : Real.exp x * Real.exp x + 1 ≠ 0 := by positivity
  rw [h2, h3]
  field_simp

/-- Rational bounds on `exp 0.8`. -/
lemma exp08_bounds : (2.0736 : ℝ) ≤ Real.exp 0.8 ∧ Real.exp 0.8 < 2.75 := by
  constructor
  · have h4 : Real.exp 0.8 = Real.exp 0.2 ^ 4 := by
      rw [← Real.exp_nat_mul]
      norm_num
    have h02 : (1.2 : ℝ) ≤ Real.exp 0.2 := by
      have h := Real.add_one_le_exp (0.2 : ℝ)
      linarith
    have hpow : (1.2 : ℝ) ^ 4 ≤ Real.exp 0.2 ^ 4 := pow_le_pow_left₀ (by norm_num) h02 4
    calc (2.0736 : ℝ) = 1.2 ^ 4 := by norm_num
      _ ≤ Real.exp 0.2 ^ 4 := hpow
      _ = Real.exp 0.8 := h4.symm
  · have ha : Real.exp 0.8 ≤ Real.exp 1 := Real.exp_le_exp.mpr (by norm_num)
    have hb : Real.exp 1 < 2.7182818286 := Real.exp_one_lt_d9
    linarith

/-- Rational bounds on `tanh 0.4`, tight enough to pin the rounded
on-chain sentiment sub-score. -/
lemma tanh04_bounds : (1 / 3 : ℝ) < Real.tanh 0.4 ∧ Real.tanh 0.4 < 7 / 15 := by
  have he : Real.tanh 0.4 = (Real.exp 0.8 - 1) / (Real.exp 0.8 + 1) := by
    rw [tanh_as_exp]
    norm_num
  obtain ⟨hlo, hhi⟩ := exp08_bounds
  have hd : (0 : ℝ) < Real.exp 0.8 + 1 := by positivity
  rw [he]
  constructor
  · rw [lt_div_iff₀ hd]
    linarith
  · rw [div_lt_iff₀ hd]
    linarith

/-! ## C4: sentiment degradation on fully absent inputs -/

/-- Evaluation: the social sub-score of an absent social object is `50`. -/
lemma scoreSocial_none : scoreSocial none = 50 := by
  unfold scoreSocial
  simp only [Option.getD_none, SocialInputs.empty]
  rw [show ((0.35 * 0 + 0.2 * 0 + 0.25 * 0 + 0.2 * 0) * 50 + 50 : ℝ) = 50 by norm_num]
  rw [round_eval 50 50 (by norm_num) (by norm_num)]
  decide

/-- Evaluation: the on-chain sub-score of an absent on-chain object is `47`
(the default gas price `0` sits `0.4` tanh-units below the 20-gwei baseline). -/
lemma scoreOnChain_none : scoreOnChain none = 47 := by
  obtain ⟨hlo, hhi⟩ := tanh04_bounds
  unfold scoreOnChain
  simp only [Option.getD_none, OnChainInputs.empty]
  rw [show ((0 : ℝ) - 0) / 1000000 = 0 by norm_num, Real.tanh_zero,
    show ((0 : ℝ) - 20) / 50 = -(0.4) by norm_num, Real.tanh_neg,
    show clampR (0 : ℝ) (-1) 1 = 0 by norm_num [clampR]]
  rw [show ((0.45 * 0 - 0.25 * 0 + 0.15 * -Real.tanh 0.4 + 0.15 * 0) * 50 + 50 : ℝ)
    = 50 - 7.5 * Real.tanh 0.4 by ring]
  rw [round_eval (50 - 7.5 * Real.tanh 0.4) 47 (by linarith) (by linarith)]
  decide

/-- Evaluation: the market-structure sub-score of an absent market object
at last price `0` is `50`. -/
lemma scoreMarketStructure_none : scoreMarketStructure none 0 = 50 := by
  unfold scoreMarketStructure
  simp only [Option.getD_none]
  rw [if_neg (by simp), if_neg (by simp)]
  rw [show ((0 : ℝ) - 0) / max 1 ((0 : ℝ) + 0) * 3 = 0 by norm_num, Real.tanh_zero,
    show clampR (0 : ℝ) (-1) 1 = 0 by norm_num [clampR]]
  rw [show ((0.5 * ((0 : ℝ) + 0 * 0.5) + 0.5 * 0 + 0.3 * 0) * 50 + 50 : ℝ) = 50 by norm_num]
  rw [round_eval 50 50 (by norm_num) (by norm_num)]
  decide

/-- Counterexample for C4: with social, on-chain and market-structure inputs
all absent, the on-chain sub-score is not the claimed neutral `50`. -/
theorem c4_cex_onchainNotFifty :
    (fuseSentiment ⟨none, none, none, 0⟩).breakdown.onchainScore ≠ 50 := by
  show scoreOnChain none ≠ 50
  rw [scoreOnChain_none]
  decide

/-- C4 (amended).  With social, on-chain and market-structure inputs all
absent, the engine degrades to near-neutral, not exactly neutral: social
and structure sub-scores are `50`, the on-chain sub-score is `47` (the
absent gas price defaults to `0`, i.e. `0.4` tanh-units below the 20-gwei
baseline), the blended score is `49`, and the label is `neutral`. -/
theorem c4_neutralDefaults :
    fuseSentiment ⟨none, none, none, 0⟩ = ⟨49, .neutral, ⟨50, 47, 50⟩⟩ := by
  have h49 : round (0.45 * ((50 : ℤ) : ℝ) + 0.35 * ((47 : ℤ) : ℝ) + 0.2 * ((50 : ℤ) : ℝ)) = 49 := by
    rw [show (0.45 * ((50 : ℤ) : ℝ) + 0.35 * ((47 : ℤ) : ℝ) + 0.2 * ((50 : ℤ) : ℝ))
      = (48.95 : ℝ) by norm_num]
    exact round_eval _ _ (by norm_num) (by norm_num)
  unfold fuseSentiment
  simp only [scoreSocial_none, scoreOnChain_none, scoreMarketStructure_none, h49]
  decide

/-! ## C5: the 5-minute mean-reversion bias -/

open Classical in
/-- C5 (amended).  With the 20-period Bollinger band and the 14-period RSI
both available, the mean-reversion bias is `-1` exactly when the last short
price is strictly above the upper band and the RSI is strictly above 70; it
is `+1` exactly when the price is strictly below the lower band and the RSI
is strictly below 30 **and nonzero** (the source's truthiness guard
`rsi5 && rsi5 < 30` drops the RSI value `0`); else it is `0`. -/
theorem c5_meanReversionBias (closes5 : List ℝ) (bb : Bollinger) (r l : ℝ)
    (hbb : bollinger closes5 20 2 = some bb) (hr : rsi closes5 14 = some r)
    (hl : closes5.getLast? = some l) :
    mrBiasOf closes5 =
      if l > bb.upper ∧ r > 70 then -1
      else if l < bb.lower ∧ r ≠ 0 ∧ r < 30 then 1
      else 0 := by
  unfold mrBiasOf
  simp only [hbb, hl, hr, numTruthy, Option.getD_some]
  by_cases hc1 : l > bb.upper ∧ r > 70
  · rw [if_pos ⟨hc1.1, (by linarith [hc1.2] : (0 : ℝ) < r).ne', hc1.2⟩, if_pos hc1]
  · rw [if_neg (fun h => hc1 ⟨h.1, h.2.2⟩), if_neg hc1]

/-- A constant series of twenty closes at `100`. -/
def constList : List ℝ :=
  [100, 100, 100, 100, 100, 100, 100, 100, 100, 100,
   100, 100, 100, 100, 100, 100, 100, 100, 100, 100]

/-- Evaluation: Bollinger bands of the constant series collapse onto `100`. -/
lemma bollinger_constList : bollinger constList 20 2 = some ⟨100, 100, 100, 0⟩ := by
  unfold bollinger constList
  norm_num [Real.sqrt_zero]

/-- Evaluation: `rsi` of the constant series is the degenerate `100`. -/
lemma rsi_constList : rsi constList 14 = some 100 := by
  unfold rsi constList avgLoss rsiLosses diffsOf
  norm_num

/-- Witness for C5 on the constant series: both indicators available, price
on neither side of the (collapsed) bands, bias `0`. -/
theorem c5_meanReversionBias_witness :
    (bollinger constList 20 2 = some ⟨100, 100, 100, 0⟩
      ∧ rsi constList 14 = some 100 ∧ constList.getLast? = some 100)
    ∧ mrBiasOf constList = 0 := by
  refine ⟨⟨bollinger_constList, rsi_constList, rfl⟩, ?_⟩
  rw [c5_meanReversionBias constList ⟨100, 100, 100, 0⟩ 100 100 bollinger_constList
    rsi_constList rfl]
  norm_num

/-- A 20-point series: nineteen closes at `100`, then a crash to `58`.
Its RSI window is all-losses (RSI exactly `0`) and the last price sits
strictly below the lower Bollinger band. -/
def crashList : List ℝ :=
  [100, 100, 100, 100, 100, 100, 100, 100, 100, 100,
   100, 100, 100, 100, 100, 100, 100, 100, 100, 58]

/-- Evaluation: the crash series' RSI is exactly `0`. -/
lemma rsi_crashList : rsi crashList 14 = some 0 := by
  unfold rsi crashList avgLoss avgGain rsiLosses rsiGains diffsOf
  norm_num

/-- Evaluation: the crash series' Bollinger bands. -/
lemma bollinger_crashList :
    bollinger crashList 20 2
      = some ⟨97.9, 97.9 + 2 * Real.sqrt 83.79, 97.9 - 2 * Real.sqrt 83.79,
          Real.sqrt 83.79⟩ := by
  unfold bollinger crashList
  norm_num

/-- Evaluation: the crash series' bias is `0` (the RSI value `0` is falsy,
so the oversold branch is skipped). -/
lemma mrBias_crashList : mrBiasOf crashList = 0 := by
  unfold mrBiasOf
  simp only [bollinger_crashList, rsi_crashList,
    show crashList.getLast? = some 58 from rfl, numTruthy, Option.getD_some]
  rw [if_neg (fun h => h.2.1 rfl), if_neg (fun h => h.2.1 rfl)]

/-- Counterexample for C5: on the crash series the last price is strictly
below the lower band and the RSI (`0`) is strictly below 30, yet the
mean-reversion bias is `0`, not the claimed `+1`. -/
theorem c5_cex_zeroRsiSkipsOversold :
    rsi crashList 14 = some 0 ∧ (0 : ℝ) < 30
    ∧ (58 : ℝ) < ((bollinger crashList 20 2).map Bollinger.lower).getD 0
    ∧ crashList.getLast? = some 58
    ∧ mrBiasOf crashList = 0 := by
  have hsqrt : Real.sqrt 83.79 < 19.95 := by
    rw [Real.sqrt_lt' (by norm_num : (0 : ℝ) < 19.95)]
    norm_num
  refine ⟨rsi_crashList, by norm_num, ?_, rfl, mrBias_crashList⟩
  rw [bollinger_crashList]
  simp only [Option.map_some', Option.getD_some]
  linarith

/-! ## C10: length mismatch is a silent sentinel 0 -/

/-- C10.  For input series of unequal length, `calculateCorrelation`
returns the sentinel `0` (no error, no truncation). -/
theorem c10_corrLenMismatch (returns1 returns2 : List ℝ)
    (h : returns1.length ≠ returns2.length) :
    calculateCorrelation returns1 returns2 = 0 := by
  unfold calculateCorrelation
  rw [if_pos (Or.inl h)]

/-- Witness for C10 at the length-1 and length-2 series `[7]` and `[1, 2]`. -/
theorem c10_corrLenMismatch_witness :
    ([7] : List ℝ).length ≠ ([1, 2] : List ℝ).length
    ∧ calculateCorrelation [7] [1, 2] = 0 :=
  ⟨by norm_num, c10_corrLenMismatch [7] [1, 2] (by norm_num)⟩

/-! ## Evaluation of the pipeline on empty candle data -/

lemma rsi_nil : rsi [] 14 = none := by
  unfold rsi
  norm_num

lemma macd_nil : macd [] 12 26 9 = none := by
  unfold macd
  norm_num

lemma bollinger_nil : bollinger [] 20 2 = none := by
  unfold bollinger
  norm_num

lemma ema_nil9 : ema [] 9 = none := by
  unfold ema
  norm_num

lemma ema_nil21 : ema [] 21 = none := by
  unfold ema
  norm_num

lemma ema_nil50 : ema [] 50 = none := by
  unfold ema
  norm_num

lemma atr_nil : atr [] 14 = none := by
  unfold atr
  norm_num

lemma mrBiasOf_nil : mrBiasOf [] = 0 := by
  unfold mrBiasOf
  simp only [bollinger_nil]

lemma trendBiasOf_nil : trendBiasOf [] = 0 := by
  unfold trendBiasOf
  simp only [ema_nil9]

/-- The technical signal produced from three empty candle sequences: all
indicators unavailable, `HOLD` with confidence `0` and size factor `0.13`. -/
def emptyTechSignal : TechSignal :=
  ⟨.HOLD, 0, 13 / 100,
   ⟨none, none, none, none, none, none, none, ⟨none, none, none⟩, none,
    ⟨[], none, none⟩, none⟩⟩

lemma analyzeMultiTimeframe_empty :
    analyzeMultiTimeframe ⟨some [], some [], some []⟩ = emptyTechSignal := by
  have h13 : round ((25 : ℝ) / 2) = 13 := round_eval _ _ (by norm_num) (by norm_num)
  unfold analyzeMultiTimeframe emptyTechSignal
  simp only [toCloses, Option.getD_some, List.map_nil, rsi_nil, macd_nil, bollinger_nil,
    ema_nil9, ema_nil21, ema_nil50, atr_nil, mrBiasOf_nil, trendBiasOf_nil,
    List.getLast?_nil, jsOr, normalize, jsRound2]
  norm_num [volumeProfile, min_def, max_def, h13]

lemma computePerfWeights_nil : computePerfWeights [] = ⟨0.5, 0.5⟩ := by
  unfold computePerfWeights perfScore
  norm_num

/-- The risk gate of `decideTrade` never fires under the default
configuration: the predicates are evaluated on constant zero inputs. -/
lemma gate_false :
    shouldHaltTrading defaultRiskConfig 0 0 (marketCircuitBreaker 0 0 0 false false)
      = false := by
  unfold shouldHaltTrading marketCircuitBreaker defaultRiskConfig
  norm_num

/-! ## Concrete orchestrator inputs -/

/-- An on-chain snapshot whose only present field is the baseline gas price
(20 gwei), so every on-chain term is `tanh 0 = 0`. -/
def ocGas20 : OnChainInputs := ⟨none, none, none, some 20, none⟩

/-- A fully bullish social snapshot (every score `1`). -/
def socialFull : SocialInputs := ⟨some 1, some 1, some 1, some 1⟩

/-- An order book with zero depths and an extreme `0.9` imbalance —
above the `0.8` circuit-breaker threshold. -/
def market09 : MarketInputs := ⟨none, none, none, some ⟨some 0, some 0, some 0.9⟩⟩

/-- An orchestrator input with empty candle data, no positions and no
trade history, parameterized by the events snapshot. -/
def mkInp (e : Option Events) : DecideInput := ⟨"BTC-USD", some [], e, none, none, none⟩

/-- Input A: empty candles, baseline-gas on-chain events only. -/
def inpA : DecideInput := mkInp (some ⟨none, some ocGas20, none⟩)

/-- Input B: empty candles, fully bullish social sentiment, baseline gas,
and an order book whose imbalance (`0.9`) exceeds the `0.8`
circuit-breaker threshold. -/
def inpB : DecideInput := mkInp (some ⟨some socialFull, some ocGas20, some market09⟩)

lemma techOf_mkInp (e : Option Events) : techOf (mkInp e) = emptyTechSignal := by
  rw [show techOf (mkInp e) = analyzeMultiTimeframe ⟨some [], some [], some []⟩ from rfl,
    analyzeMultiTimeframe_empty]

lemma lastCloseOf_mkInp (e : Option Events) : lastCloseOf (mkInp e) = 0 := by
  simp [lastCloseOf, mkInp, jsOr]

lemma atr1Of_mkInp (e : Option Events) : atr1Of (mkInp e) = 0 := by
  rw [atr1Of, techOf_mkInp]
  simp [emptyTechSignal, jsOr]

lemma atrPctOf_mkInp (e : Option Events) : atrPctOf (mkInp e) = 0 := by
  unfold atrPctOf
  rw [atr1Of_mkInp]
  simp

lemma emaSlopeOf_mkInp (e : Option Events) : emaSlopeOf (mkInp e) = 0 := by
  unfold emaSlopeOf
  rw [techOf_mkInp, lastCloseOf_mkInp]
  norm_num [emptyTechSignal, jsOr]

lemma perfWeightsOf_mkInp (e : Option Events) : perfWeightsOf (mkInp e) = ⟨0.5, 0.5⟩ := by
  unfold perfWeightsOf
  rw [show (mkInp e).recentTrades = none from rfl]
  simpa using computePerfWeights_nil

lemma regimeOf_inpA : regimeOf inpA = ⟨false, false, false⟩ := by
  rw [show inpA = mkInp (some ⟨none, some ocGas20, none⟩) from rfl]
  unfold regimeOf detectRegime
  rw [atrPctOf_mkInp, emaSlopeOf_mkInp]
  norm_num [mkInp]

lemma regimeOf_inpB : regimeOf inpB = ⟨false, false, true⟩ := by
  rw [show inpB = mkInp (some ⟨some socialFull, some ocGas20, some market09⟩) from rfl]
  unfold regimeOf detectRegime
  rw [atrPctOf_mkInp, emaSlopeOf_mkInp]
  norm_num [mkInp, market09]

lemma techWeightOf_inpA : techWeightOf inpA = 0.475 := by
  unfold techWeightOf baseTechWeightOf
  rw [regimeOf_inpA, show inpA = mkInp (some ⟨none, some ocGas20, none⟩) from rfl,
    perfWeightsOf_mkInp]
  norm_num [min_def, max_def]

lemma sentWeightOf_inpA : sentWeightOf inpA = 0.525 := by
  unfold sentWeightOf baseTechWeightOf
  rw [regimeOf_inpA, show inpA = mkInp (some ⟨none, some ocGas20, none⟩) from rfl,
    perfWeightsOf_mkInp]
  norm_num [min_def, max_def]

lemma techWeightOf_inpB : techWeightOf inpB = 0.475 := by
  unfold techWeightOf baseTechWeightOf
  rw [regimeOf_inpB, show inpB = mkInp (some ⟨some socialFull, some ocGas20, some market09⟩)
    from rfl, perfWeightsOf_mkInp]
  norm_num [min_def, max_def]

lemma sentWeightOf_inpB : sentWeightOf inpB = 0.525 := by
  unfold sentWeightOf baseTechWeightOf
  rw [regimeOf_inpB, show inpB = mkInp (some ⟨some socialFull, some ocGas20, some market09⟩)
    from rfl, perfWeightsOf_mkInp]
  norm_num [min_def, max_def]

lemma scoreOnChain_gas20 : scoreOnChain (some ocGas20) = 50 := by
  unfold scoreOnChain ocGas20
  simp only [Option.getD_some, Option.getD_none]
  rw [show ((0 : ℝ) - 0) / 1000000 = 0 by norm_num,
    show ((20 : ℝ) - 20) / 50 = 0 by norm_num, Real.tanh_zero,
    show clampR (0 : ℝ) (-1) 1 = 0 by norm_num [clampR]]
  rw [show ((0.45 * 0 - 0.25 * 0 + 0.15 * 0 + 0.15 * 0) * 50 + 50 : ℝ) = 50 by norm_num]
  rw [round_eval 50 50 (by norm_num) (by norm_num)]
  decide

lemma scoreSocial_full : scoreSocial (some socialFull) = 100 := by
  unfold scoreSocial socialFull
  simp only [Option.getD_some]
  rw [show ((0.35 * 1 + 0.2 * 1 + 0.25 * 1 + 0.2 * 1) * 50 + 50 : ℝ) = 100 by norm_num]
  rw [round_eval 100 100 (by norm_num) (by norm_num)]
  decide

lemma scoreMS_market09 : scoreMarketStructure (some market09) 0 = 61 := by
  unfold scoreMarketStructure market09
  simp only [Option.getD_some, Option.getD_none]
  rw [if_neg (by simp), if_neg (by simp)]
  rw [show ((0 : ℝ) - 0) / max 1 ((0 : ℝ) + 0) * 3 = 0 by norm_num, Real.tanh_zero]
  rw [show clampR (0.9 : ℝ) (-1) 1 = 0.9 by norm_num [clampR, min_def, max_def]]
  rw [show ((0.5 * ((0 : ℝ) + 0.9 * 0.5) + 0.5 * 0 + 0.3 * 0) * 50 + 50 : ℝ) = 61.25
    by norm_num]
  rw [round_eval (61.25 : ℝ) 61 (by norm_num) (by norm_num)]
  decide

lemma sentimentOf_inpA : sentimentOf inpA = ⟨50, .neutral, ⟨50, 50, 50⟩⟩ := by
  have h50 : round (0.45 * ((50 : ℤ) : ℝ) + 0.35 * ((50 : ℤ) : ℝ) + 0.2 * ((50 : ℤ) : ℝ))
      = 50 := by
    rw [show (0.45 * ((50 : ℤ) : ℝ) + 0.35 * ((50 : ℤ) : ℝ) + 0.2 * ((50 : ℤ) : ℝ))
      = (50 : ℝ) by norm_num]
    exact round_eval _ _ (by norm_num) (by norm_num)
  unfold sentimentOf
  rw [show inpA.events.bind Events.social = none from rfl,
    show inpA.events.bind Events.onchain = some ocGas20 from rfl,
    show inpA.events.bind Events.market = none from rfl,
    show lastCloseOf inpA = 0 from lastCloseOf_mkInp _]
  unfold fuseSentiment
  simp only [scoreSocial_none, scoreOnChain_gas20, scoreMarketStructure_none, h50]
  decide

lemma sentimentOf_inpB : sentimentOf inpB = ⟨75, .bullish, ⟨100, 50, 61⟩⟩ := by
  have h75 : round (0.45 * ((100 : ℤ) : ℝ) + 0.35 * ((50 : ℤ) : ℝ) + 0.2 * ((61 : ℤ) : ℝ))
      = 75 := by
    rw [show (0.45 * ((100 : ℤ) : ℝ) + 0.35 * ((50 : ℤ) : ℝ) + 0.2 * ((61 : ℤ) : ℝ))
      = (74.7 : ℝ) by norm_num]
    exact round_eval _ _ (by norm_num) (by norm_num)
  unfold sentimentOf
  rw [show inpB.events.bind Events.social = some socialFull from rfl,
    show inpB.events.bind Events.onchain = some ocGas20 from rfl,
    show inpB.events.bind Events.market = some market09 from rfl,
    show lastCloseOf inpB = 0 from lastCloseOf_mkInp _]
  unfold fuseSentiment
  simp only [scoreSocial_full, scoreOnChain_gas20, scoreMS_market09, h75]
  decide

lemma techBiasOf_mkInp (e : Option Events) : techBiasOf (mkInp e) = 0 := by
  unfold techBiasOf
  rw [techOf_mkInp]
  rfl

lemma techStrengthOf_mkInp (e : Option Events) : techStrengthOf (mkInp e) = 0.5 := by
  unfold techStrengthOf
  rw [techOf_mkInp]
  norm_num [emptyTechSignal]

lemma equityOf_mkInp (e : Option Events) : equityOf (mkInp e) = 10000 := by
  simp [equityOf, mkInp, jsOr]

lemma sentimentBiasOf_inpA : sentimentBiasOf inpA = 0 := by
  unfold sentimentBiasOf
  rw [sentimentOf_inpA]
  norm_num

lemma sentimentBiasOf_inpB : sentimentBiasOf inpB = 0.5 := by
  unfold sentimentBiasOf
  rw [sentimentOf_inpB]
  norm_num

lemma normOf_inpA : normOf inpA = 1 := by
  unfold normOf
  rw [techWeightOf_inpA, sentWeightOf_inpA]
  norm_num

lemma normOf_inpB : normOf inpB = 1 := by
  unfold normOf
  rw [techWeightOf_inpB, sentWeightOf_inpB]
  norm_num

lemma techBiasOf_inpA : techBiasOf inpA = 0 := techBiasOf_mkInp _

lemma techBiasOf_inpB : techBiasOf inpB = 0 := techBiasOf_mkInp _

lemma techStrengthOf_inpA : techStrengthOf inpA = 0.5 := techStrengthOf_mkInp _

lemma techStrengthOf_inpB : techStrengthOf inpB = 0.5 := techStrengthOf_mkInp _

lemma fusedOf_inpA : fusedOf inpA = 0 := by
  unfold fusedOf
  rw [techBiasOf_inpA, techStrengthOf_inpA, sentimentBiasOf_inpA, techWeightOf_inpA,
    sentWeightOf_inpA, normOf_inpA]
  norm_num

lemma fusedOf_inpB : fusedOf inpB = 0.2625 := by
  unfold fusedOf
  rw [techBiasOf_inpB, techStrengthOf_inpB, sentimentBiasOf_inpB, techWeightOf_inpB,
    sentWeightOf_inpB, normOf_inpB]
  norm_num

lemma confidence0Of_inpA : confidence0Of inpA = 0 := by
  unfold confidence0Of
  rw [fusedOf_inpA]
  norm_num [min_def]

lemma confidence0Of_inpB : confidence0Of inpB = 0.2625 := by
  unfold confidence0Of
  rw [fusedOf_inpB]
  rw [show |(0.2625 : ℝ)| = 0.2625 from abs_of_pos (by norm_num)]
  norm_num [min_def]

lemma action1Of_inpA : action1Of inpA = .hold := by
  unfold action1Of conflictOf action0Of
  rw [techBiasOf_inpA, sentimentBiasOf_inpA, fusedOf_inpA]
  norm_num

lemma action1Of_inpB : action1Of inpB = .buy := by
  unfold action1Of conflictOf action0Of
  rw [techBiasOf_inpB, sentimentBiasOf_inpB, fusedOf_inpB]
  norm_num

lemma equityOf_inpA : equityOf inpA = 10000 := equityOf_mkInp _

lemma equityOf_inpB : equityOf inpB = 10000 := equityOf_mkInp _

lemma atrPctOf_inpA : atrPctOf inpA = 0 := atrPctOf_mkInp _

lemma atrPctOf_inpB : atrPctOf inpB = 0 := atrPctOf_mkInp _

lemma sizeUsdOf_inpA : sizeUsdOf defaultRiskConfig inpA = 0 := by
  unfold sizeUsdOf positionSizeUsd kellyFraction capOrderSizeUsd
  rw [equityOf_inpA, confidence0Of_inpA, atrPctOf_inpA]
  norm_num [defaultRiskConfig, min_def, max_def]

lemma sizeUsdOf_inpB : sizeUsdOf defaultRiskConfig inpB = 0 := by
  unfold sizeUsdOf positionSizeUsd kellyFraction capOrderSizeUsd
  rw [equityOf_inpB, confidence0Of_inpB, atrPctOf_inpB]
  norm_num [defaultRiskConfig, min_def, max_def]

/-! ## The claims on decideTrade -/

/-- An advisory response: `HOLD`, confidence `0.9`, position size `50`
percent of equity. -/
def llmHold : LlmDecision := ⟨.HOLD, 0.9, 50, 0, 0⟩

/-- An advisory response: `BUY`, confidence `0.95`, position size `10`
percent of equity. -/
def llmBuy : LlmDecision := ⟨.BUY, 0.95, 10, 0, 0⟩

lemma overlay_inpA_llmHold :
    overlayOf defaultRiskConfig inpA (.parsed llmHold)
      = .error (.typeError "Assignment to constant variable.") := by
  unfold overlayOf llmHold
  norm_num [action1Of_inpA, confidence0Of_inpA, equityOf_inpA, capOrderSizeUsd,
    defaultRiskConfig, min_def, max_def]

lemma overlay_inpA_llmBuy :
    overlayOf defaultRiskConfig inpA (.parsed llmBuy)
      = .error (.typeError "Assignment to constant variable.") := by
  unfold overlayOf llmBuy
  norm_num [action1Of_inpA, confidence0Of_inpA, equityOf_inpA, capOrderSizeUsd,
    defaultRiskConfig, min_def, max_def]

lemma overlay_inpB_absent :
    overlayOf defaultRiskConfig inpB .absent = .ok (.buy, 0.2625) := by
  rw [show overlayOf defaultRiskConfig inpB .absent
    = .ok (action1Of inpB, confidence0Of inpB) from rfl,
    action1Of_inpB, confidence0Of_inpB]

/-- C1.  On input A with an accepted advisory (`HOLD` aligned with the
local hold, confidence `0.9`, position size `50%`), `decideTrade` throws a
`TypeError` (the `const sizeUsd` binding is reassigned) instead of emitting
the minimum of the local and advisory sizes. -/
theorem c1_advisorySizeThrows :
    decideTrade defaultRiskConfig inpA (.parsed llmHold)
      = .error (.typeError "Assignment to constant variable.") := by
  unfold decideTrade
  rw [gate_false, if_neg Bool.false_ne_true, overlay_inpA_llmHold]

/-- C3.  On input A with a high-confidence advisory (`BUY`, confidence
`0.95 > local + 0.2`, position size `10%`), `decideTrade` again throws a
`TypeError` rather than returning a decision record: it is not total. -/
theorem c3_decideTradeNotTotal :
    decideTrade defaultRiskConfig inpA (.parsed llmBuy)
      = .error (.typeError "Assignment to constant variable.") := by
  unfold decideTrade
  rw [gate_false, if_neg Bool.false_ne_true, overlay_inpA_llmBuy]

/-- C2.  Input B's order-book imbalance (`0.9`) satisfies the
circuit-breaker predicate, yet `decideTrade` does not short-circuit to
`hold`/`risk_halt`: the predicates are invoked on constant zero inputs, so
the full signal pipeline runs and even emits a `buy`. -/
theorem c2_gateNotWired :
    marketCircuitBreaker 0 0 0.9 false false = true
    ∧ (decideTrade defaultRiskConfig inpB .absent).map (fun d => (d.action, d.reason))
      = .ok (Action.buy, none) := by
  constructor
  · unfold marketCircuitBreaker
    rw [show |(0.9 : ℝ)| = (0.9 : ℝ) from abs_of_pos (by norm_num)]
    norm_num
  · unfold decideTrade
    rw [gate_false, if_neg Bool.false_ne_true, overlay_inpB_absent]
    rfl

/-- C9.  Every decision record `decideTrade` actually returns (under the
default configuration) whose action is `hold` carries buy-side stops
computed at the last 1-hour close and the 1-hour ATR. -/
theorem c9_holdCarriesBuyStops (inp : DecideInput) (llm : LlmResult) (d : Decision)
    (h : decideTrade defaultRiskConfig inp llm = .ok d) (hact : d.action = .hold) :
    d.stops = some (computeStops defaultRiskConfig (lastCloseOf inp) .buy (atr1Of inp)) := by
  unfold decideTrade at h
  rw [gate_false, if_neg Bool.false_ne_true] at h
  rcases hov : overlayOf defaultRiskConfig inp llm with e | p
  · rw [hov] at h
    exact absurd h (by simp)
  · rw [hov] at h
    obtain ⟨a, c⟩ := p
    simp only [Except.ok.injEq] at h
    subst h
    simp only [Decision.action] at hact
    subst hact
    simp

/-- The decision record returned on input A with no advisory. -/
def decisionA : Decision :=
  ⟨some "BTC-USD", .hold, none, some 0, some 0, some ⟨false, false, false⟩, some ⟨0, 0⟩⟩

lemma decideTrade_inpA_absent :
    decideTrade defaultRiskConfig inpA .absent = .ok decisionA := by
  unfold decideTrade decisionA
  rw [gate_false, if_neg Bool.false_ne_true,
    show overlayOf defaultRiskConfig inpA .absent
      = .ok (action1Of inpA, confidence0Of inpA) from rfl,
    action1Of_inpA, confidence0Of_inpA]
  conv_lhs => whnf
  rw [sizeUsdOf_inpA, regimeOf_inpA, show lastCloseOf inpA = 0 from lastCloseOf_mkInp _,
    show atr1Of inpA = 0 from atr1Of_mkInp _,
    if_neg (by simp : ¬(Action.hold = Action.sell))]
  unfold computeStops
  norm_num [defaultRiskConfig]
  rfl

/-- Witness for C9: on input A without advisory, `decideTrade` returns a
`hold` decision and its stops equal the buy-side stops at the last close. -/
theorem c9_holdCarriesBuyStops_witness :
    decideTrade defaultRiskConfig inpA .absent = .ok decisionA
    ∧ decisionA.stops
      = some (computeStops defaultRiskConfig (lastCloseOf inpA) .buy (atr1Of inpA)) :=
  ⟨decideTrade_inpA_absent,
   c9_holdCarriesBuyStops inpA .absent decisionA decideTrade_inpA_absent rfl⟩

end

end VibeTrader
